import Mathlib

/-!
Verification of the NewsShorts feed pipeline: a shallow embedding of the
frontend Feed Client (`src/frontend/src/pages/NewsFeed.jsx`) and the Card
Renderer (`src/frontend/src/components/NewsCard.jsx`), with theorems about
their observable behaviour.

Modelling conventions:
- JavaScript `Date` values and `Date.now()` are epoch milliseconds, embedded
  as `Int`.
- `Math.floor` of an exact integer quotient is `Int.fdiv` (floor division).
- JavaScript `toLocaleDateString` is locale/environment dependent, so it is a
  function parameter of `formatTime`.
- Nullable JavaScript fields are `Option`; JS string truthiness (`null`,
  `undefined` and `""` are falsy) is modelled explicitly.
- React state is the record `FeedState`; an async handler is embedded as a
  function from the pre-state and the outcome of its awaited requests to the
  post-state, and separately as the list of HTTP requests it issues.
-/

namespace NewsShorts

/-! ## Card Renderer (NewsCard.jsx) -/

/-- Milliseconds per hour: `1000 * 60 * 60` from `formatTime`. -/
def msPerHour : Int := 1000 * 60 * 60

/-- Embedding of `formatTime` in NewsCard.jsx.
`diffInHours = Math.floor((now - date) / (1000*60*60))`; returns
`"Just now"` below one hour, `` `${diffInHours}h ago` `` below 24, and
`date.toLocaleDateString()` otherwise.  The locale-dependent
`toLocaleDateString` is passed in as `localeDate`. -/
def formatTime (localeDate : Int → String) (nowMs dateMs : Int) : String :=
  let diffInHours : Int := Int.fdiv (nowMs - dateMs) msPerHour
  if diffInHours < 1 then "Just now"
  else if diffInHours < 24 then toString diffInHours ++ "h ago"
  else localeDate dateMs

/-- The `categoryImages` table of `getImageUrl` in NewsCard.jsx:
category → default Unsplash image URL, `none` for a key not in the table. -/
def categoryImages (c : String) : Option String :=
  if c = "technology" then some "https://images.unsplash.com/photo-1518770660439-4636190af475?w=800&q=80"
  else if c = "business" then some "https://images.unsplash.com/photo-1460925895917-afdab827c52f?w=800&q=80"
  else if c = "sports" then some "https://images.unsplash.com/photo-1461896836934-ffe607ba8211?w=800&q=80"
  else if c = "entertainment" then some "https://images.unsplash.com/photo-1514525253161-7a46d19cd819?w=800&q=80"
  else if c = "health" then some "https://images.unsplash.com/photo-1505751172876-fa1923c5c528?w=800&q=80"
  else if c = "science" then some "https://images.unsplash.com/photo-1532094349884-543bc11b234d?w=800&q=80"
  else if c = "world" then some "https://images.unsplash.com/photo-1526778548025-fa2f459cd5c1?w=800&q=80"
  else if c = "general" then some "https://images.unsplash.com/photo-1504711434969-e33886168f5c?w=800&q=80"
  else none

/-- The `general` entry of the table, used as `|| categoryImages.general`. -/
def generalImage : String :=
  "https://images.unsplash.com/photo-1504711434969-e33886168f5c?w=800&q=80"

/-- The keys of the `categoryImages` table (the enumerated category set). -/
def enumeratedCategories : List String :=
  ["technology", "business", "sports", "entertainment", "health", "science",
   "world", "general"]

/-- Embedding of `getImageUrl` in NewsCard.jsx:
`if (news.image_url) return news.image_url;` (JS truthiness: `null` and `""`
are falsy) `return categoryImages[news.category] || categoryImages.general;`
(a missing key yields `undefined`, falsy; every table value is a non-empty
string, truthy). -/
def getImageUrl (image_url : Option String) (category : String) : String :=
  match image_url with
  | some u => if u ≠ "" then u else (categoryImages category).getD generalImage
  | none => (categoryImages category).getD generalImage

/-- JavaScript `String.prototype.replace` with the string pattern `'_'`:
replaces only the FIRST occurrence of the underscore. -/
def replaceFirstUnderscore : List Char → List Char
  | [] => []
  | c :: cs => if c = '_' then ' ' :: cs else c :: replaceFirstUnderscore cs

/-- Embedding of the badge label expression in NewsCard.jsx:
`news.category.replace('_', ' ').toUpperCase()`. -/
def categoryLabel (category : String) : String :=
  String.mk ((replaceFirstUnderscore category.data).map Char.toUpper)

/-- Replacement of EVERY underscore by a space, as the spec reads
("replacing internal separators with spaces"): used to compare the code's
first-occurrence behaviour against the spec's words. -/
def underscoreToSpaceAll (l : List Char) : List Char :=
  l.map (fun ch => if ch = '_' then ' ' else ch)

/-- Category label as the spec describes it: replace every underscore with a
space, then upper-case. -/
def specCategoryLabel (category : String) : String :=
  String.mk ((underscoreToSpaceAll category.data).map Char.toUpper)

/-! ## Feed Client (NewsFeed.jsx) -/

/-- Wire shape of one news record as consumed by the Client
(NewsSummary; `image_url` is nullable). -/
structure NewsItem where
  id : String
  title : String
  summary : String
  source_url : String
  source_name : String
  category : String
  image_url : Option String
  timestamp : Int
deriving DecidableEq, Repr

/-- React state of the `NewsFeed` component: `news`, `loading`, `refreshing`,
`error`, `selectedCategory`. -/
structure FeedState where
  news : List NewsItem
  loading : Bool
  refreshing : Bool
  error : Option String
  selectedCategory : String
deriving DecidableEq, Repr

/-- Initial state from the `useState` initializers:
`[]`, `true`, `false`, `null`, `'all'`. -/
def initState : FeedState :=
  { news := [], loading := true, refreshing := false, error := none,
    selectedCategory := "all" }

/-- Outcome of the awaited `GET /api/news` request inside `fetchNews`:
the promise resolves with `success: true` and a list of items, resolves with
`success: false`, or rejects (network/HTTP error thrown by axios). -/
inductive ListResult where
  | ok (items : List NewsItem)
  | svcFail
  | netErr
deriving DecidableEq, Repr

/-- State after the synchronous prefix of `fetchNews(isRefresh, ...)`, before
the awaited request returns: `if (isRefresh) setRefreshing(true) else
setLoading(true); setError(null);`. -/
def fetchNewsStart (isRefresh : Bool) (s : FeedState) : FeedState :=
  let s1 := if isRefresh then { s with refreshing := true }
            else { s with loading := true }
  { s1 with error := none }

/-- State update of `fetchNews` once the awaited request settles: on
`success` replace `news`; on `success: false` set
`error = 'Failed to load news'`; on a thrown error set
`error = 'Unable to fetch news. Please try again later.'`; the `finally`
block then runs `setLoading(false); setRefreshing(false)`. -/
def fetchNewsComplete (r : ListResult) (s : FeedState) : FeedState :=
  let s1 := match r with
    | ListResult.ok items => { s with news := items }
    | ListResult.svcFail => { s with error := some "Failed to load news" }
    | ListResult.netErr =>
        { s with error := some "Unable to fetch news. Please try again later." }
  { s1 with loading := false, refreshing := false }

/-- Whole run of `fetchNews(isRefresh, category)` from invocation to settled
promise, given the outcome `r` of its single awaited request. -/
def fetchNews (isRefresh : Bool) (r : ListResult) (s : FeedState) : FeedState :=
  fetchNewsComplete r (fetchNewsStart isRefresh s)

/-- Embedding of `const API_BASE = process.env.REACT_APP_API_URL ||
'http://localhost:8001'` (JS `||`: `undefined` and `""` are falsy). -/
def apiBase (env : Option String) : String :=
  match env with
  | some v => if v ≠ "" then v else "http://localhost:8001"
  | none => "http://localhost:8001"

/-- Embedding of `const API = API_BASE + '/api'`. -/
def apiPrefix (base : String) : String := base ++ "/api"

/-- URL of the list request issued by `fetchNews`:
`` `${API}/news?limit=50${categoryParam}` `` with
`categoryParam = category !== 'all' ? `&category=${category}` : ''`. -/
def listRequestUrl (base category : String) : String :=
  apiPrefix base ++ "/news?limit=50" ++
    (if category ≠ "all" then "&category=" ++ category else "")

/-- URL of the refresh click `onClick={() => fetchNews(true)}`: the
`category` parameter defaults to the current `selectedCategory`. -/
def refreshRequestUrl (base : String) (s : FeedState) : String :=
  listRequestUrl base s.selectedCategory

/-- URL of the seed request `axios.post(`${API}/news/seed`)`. -/
def seedRequestUrl (base : String) : String :=
  apiPrefix base ++ "/news/seed"

/-- Outcome of the awaited `POST /api/news/seed` inside `seedNews`: either
the post resolves and the inner `fetchNews()` then settles with `lr`, or the
post rejects (the inner fetch never runs; `fetchNews` itself catches every
error, so the post is the only statement of the `try` block that can
throw). -/
inductive SeedResult where
  | ok (lr : ListResult)
  | err
deriving DecidableEq, Repr

/-- Whole run of `seedNews()`: `setRefreshing(true); await post; await
fetchNews();` — the inner call uses the defaults `isRefresh = false`,
`category = selectedCategory` — with `catch` only logging and `finally`
running `setRefreshing(false)`. -/
def seedNews (r : SeedResult) (s : FeedState) : FeedState :=
  let s1 := { s with refreshing := true }
  match r with
  | SeedResult.ok lr =>
      let s2 := fetchNews false lr s1
      { s2 with refreshing := false }
  | SeedResult.err => { s1 with refreshing := false }

/-- One HTTP request issued by the Client. -/
inductive Request where
  | listReq (url : String)
  | seedReq (url : String)
deriving DecidableEq, Repr

/-- Sequence of requests issued by one run of `seedNews()`: the seed post
first, then — only if the post resolved — the list request of the inner
`fetchNews()` with the current `selectedCategory`. -/
def seedNewsRequests (base : String) (s : FeedState) : SeedResult → List Request
  | SeedResult.ok _ =>
      [Request.seedReq (seedRequestUrl base),
       Request.listReq (listRequestUrl base s.selectedCategory)]
  | SeedResult.err => [Request.seedReq (seedRequestUrl base)]

/-- JS truthiness of the nullable string state `error`. -/
def jsTruthy : Option String → Bool
  | none => false
  | some v => v != ""

/-- The guard of the empty-state block in the JSX:
`news.length === 0 && !error` — the block that renders the
"Load Sample News" button invoking `seedNews`. -/
def showSeedAction (s : FeedState) : Bool :=
  (s.news.length == 0) && !(jsTruthy s.error)

/-- The card list rendered by the main block: `news.map(item => <NewsCard
news={item} />)` — one card per item, in the order of `news`. -/
def renderedCards (s : FeedState) : List NewsItem :=
  s.news.map (fun item => item)

/-- A concrete settled state (first load finished, nothing displayed), used
to instantiate theorems at a concrete input. -/
def sampleLoadedState : FeedState :=
  { news := [], loading := false, refreshing := false, error := none,
    selectedCategory := "technology" }

/-! ## Helper lemmas -/

theorem underscoreToSpaceAll_of_not_mem {l : List Char} (h : '_' ∉ l) :
    underscoreToSpaceAll l = l := by
  induction l with
  | nil => rfl
  | cons c cs ih =>
    have hc : ¬ (c = '_') := fun hh => h (by simp [hh])
    have hcs : '_' ∉ cs := fun hh => h (by simp [hh])
    simp [underscoreToSpaceAll, hc]
    simpa [underscoreToSpaceAll] using ih hcs

theorem replaceFirst_eq_all {l : List Char} (h : l.count '_' ≤ 1) :
    replaceFirstUnderscore l = underscoreToSpaceAll l := by
  induction l with
  | nil => rfl
  | cons c cs ih =>
    by_cases hc : c = '_'
    · subst hc
      have hcount : cs.count '_' = 0 := by
        simp [List.count_cons] at h
        omega
      have hnm : '_' ∉ cs := List.count_eq_zero.mp hcount
      simp [replaceFirstUnderscore, underscoreToSpaceAll]
      simpa [underscoreToSpaceAll] using (underscoreToSpaceAll_of_not_mem hnm).symm
    · have h' : cs.count '_' ≤ 1 := by
        simp [List.count_cons, hc] at h ⊢
        omega
      simp [replaceFirstUnderscore, underscoreToSpaceAll, hc]
      simpa [underscoreToSpaceAll] using ih h'

/-! ## Claim theorems -/

/-- C1: the relative-time label of the Card Renderer is "Just now" for a
`timestamp` less than one hour in the past, "Nh ago" with N the whole number
of elapsed hours for at least 1 and less than 24 hours in the past, and the
calendar-date string (`toLocaleDateString`) otherwise. -/
theorem claim_C1 (localeDate : Int → String) (nowMs dateMs : Int) :
    (0 ≤ nowMs - dateMs → nowMs - dateMs < msPerHour →
      formatTime localeDate nowMs dateMs = "Just now") ∧
    (∀ N : Int, 1 ≤ N → N < 24 → N * msPerHour ≤ nowMs - dateMs →
      nowMs - dateMs < (N + 1) * msPerHour →
      formatTime localeDate nowMs dateMs = toString N ++ "h ago") ∧
    (24 * msPerHour ≤ nowMs - dateMs →
      formatTime localeDate nowMs dateMs = localeDate dateMs) := by
  have hm : msPerHour = 3600000 := by norm_num [msPerHour]
  refine ⟨?_, ?_, ?_⟩
  · intro h0 h1
    have hd : Int.fdiv (nowMs - dateMs) msPerHour = 0 := by
      rw [hm] at h1 ⊢
      rw [Int.fdiv_eq_ediv _ (by omega)]
      omega
    simp [formatTime, hd]
  · intro N h1 h2 h3 h4
    have hd : Int.fdiv (nowMs - dateMs) msPerHour = N := by
      rw [hm] at h3 h4 ⊢
      rw [Int.fdiv_eq_ediv _ (by omega)]
      omega
    simp only [formatTime, hd]
    rw [if_neg (by omega), if_pos (by omega)]
  · intro h
    have hd : 24 ≤ Int.fdiv (nowMs - dateMs) msPerHour := by
      rw [hm] at h ⊢
      rw [Int.fdiv_eq_ediv _ (by omega)]
      omega
    simp only [formatTime]
    rw [if_neg (by omega), if_neg (by omega)]

/-- C1 witness: 30 minutes in the past renders "Just now", 5 hours renders
"5h ago", 48 hours renders the calendar-date string. -/
theorem claim_C1_witness :
    formatTime (fun _ => "1/1/2026") 200000000000 (200000000000 - 1800000)
      = "Just now" ∧
    formatTime (fun _ => "1/1/2026") 200000000000 (200000000000 - 5 * 3600000)
      = "5h ago" ∧
    formatTime (fun _ => "1/1/2026") 200000000000 (200000000000 - 48 * 3600000)
      = "1/1/2026" := by
  refine ⟨(claim_C1 _ _ _).1 (by norm_num) (by norm_num [msPerHour]), ?_,
    (claim_C1 _ _ _).2.2 (by norm_num [msPerHour])⟩
  have h := (claim_C1 (fun _ => "1/1/2026") 200000000000
    (200000000000 - 5 * 3600000)).2.1 5 (by norm_num) (by norm_num)
    (by norm_num [msPerHour]) (by norm_num [msPerHour])
  rw [h]
  rfl

/-- C2 counterexample: the badge label of the category string "a_b_c" is
"A B_C" (JavaScript `replace('_', ' ')` replaces only the first occurrence),
not the spec's "A B C", so not every underscore appears as a space. -/
theorem claim_C2_counterexample :
    categoryLabel "a_b_c" = "A B_C" ∧
    specCategoryLabel "a_b_c" = "A B C" ∧
    categoryLabel "a_b_c" ≠ specCategoryLabel "a_b_c" := by
  decide

/-- C2 amended: the label replaces only the FIRST underscore with a space
before upper-casing; for a category string with at most one underscore —
which covers every category of the enumerated set — the label agrees with
the spec's description (every underscore appears as a space). -/
theorem claim_C2_amended (c : String) (h : c.data.count '_' ≤ 1) :
    categoryLabel c = specCategoryLabel c := by
  rw [categoryLabel, specCategoryLabel, replaceFirst_eq_all h]

/-- C2 witness: "world_news" has a single underscore and its label matches
the spec's replace-every-underscore reading. -/
theorem claim_C2_amended_witness :
    "world_news".data.count '_' ≤ 1 ∧
    categoryLabel "world_news" = specCategoryLabel "world_news" :=
  ⟨by decide, claim_C2_amended "world_news" (by decide)⟩

/-- C3: with `image_url = null`, category "technology" resolves to the
technology default image and a category outside the enumerated set resolves
to the general default image; a non-null, non-empty `image_url` is used
as-is. -/
theorem claim_C3 (u cat : String) :
    getImageUrl none "technology" =
      "https://images.unsplash.com/photo-1518770660439-4636190af475?w=800&q=80" ∧
    (cat ∉ enumeratedCategories → getImageUrl none cat = generalImage) ∧
    (u ≠ "" → getImageUrl (some u) cat = u) := by
  refine ⟨rfl, ?_, ?_⟩
  · intro h
    simp only [enumeratedCategories, List.mem_cons, List.not_mem_nil,
      not_or, or_false] at h
    obtain ⟨h1, h2, h3, h4, h5, h6, h7, h8⟩ := h
    simp [getImageUrl, categoryImages, h1, h2, h3, h4, h5, h6, h7, h8,
      generalImage]
  · intro h
    simp [getImageUrl, h]

/-- C3 witness: a record with no image and category "technology" gets the
technology image, the out-of-set category "astrology" gets the general
image, and an explicit non-empty URL wins. -/
theorem claim_C3_witness :
    getImageUrl none "technology" =
      "https://images.unsplash.com/photo-1518770660439-4636190af475?w=800&q=80" ∧
    "astrology" ∉ enumeratedCategories ∧
    getImageUrl none "astrology" = generalImage ∧
    getImageUrl (some "https://example.com/pic.png") "technology" =
      "https://example.com/pic.png" := by
  refine ⟨(claim_C3 "x" "astrology").1, by decide,
    (claim_C3 "x" "astrology").2.1 (by decide),
    (claim_C3 "https://example.com/pic.png" "technology").2.2 (by decide)⟩

/-- C4 counterexample: not every request failure yields the generic message.
A list response with `success: false` sets the distinct message
"Failed to load news", and a failed seed post sets no user-facing message at
all (the `catch` only logs; `error` stays `null`). -/
theorem claim_C4_counterexample :
    (fetchNews false ListResult.svcFail initState).error =
      some "Failed to load news" ∧
    "Failed to load news" ≠ "Unable to fetch news. Please try again later." ∧
    (seedNews SeedResult.err initState).error = none := by
  refine ⟨rfl, by decide, rfl⟩

/-- C4 amended: only a thrown (network/HTTP) list failure yields the generic
message "Unable to fetch news. Please try again later."; a list response
with `success: false` yields "Failed to load news" instead, and a failed
seed post leaves `error` unchanged (it is only logged). -/
theorem claim_C4_amended (s : FeedState) (b : Bool) :
    (fetchNews b ListResult.netErr s).error =
      some "Unable to fetch news. Please try again later." ∧
    (fetchNews b ListResult.svcFail s).error = some "Failed to load news" ∧
    (seedNews SeedResult.err s).error = s.error := by
  cases b <;> exact ⟨rfl, rfl, rfl⟩

/-- C5: a failed list request (service `success: false` or a thrown network
error) sets `error` to a user-facing message and leaves `items` (`news`)
exactly as before. -/
theorem claim_C5 (s : FeedState) (b : Bool) :
    (fetchNews b ListResult.svcFail s).news = s.news ∧
    (fetchNews b ListResult.svcFail s).error = some "Failed to load news" ∧
    (fetchNews b ListResult.netErr s).news = s.news ∧
    (fetchNews b ListResult.netErr s).error =
      some "Unable to fetch news. Please try again later." := by
  cases b <;> exact ⟨rfl, rfl, rfl, rfl⟩

/-- C6: a successful list response replaces `news` with exactly the returned
sequence, the rendered card list is that sequence in the same order (no
re-sorting), and `error` is null in the resulting state. -/
theorem claim_C6 (s : FeedState) (b : Bool) (items : List NewsItem) :
    (fetchNews b (ListResult.ok items) s).news = items ∧
    (fetchNews b (ListResult.ok items) s).error = none ∧
    renderedCards (fetchNews b (ListResult.ok items) s) = items := by
  cases b <;> exact ⟨rfl, rfl, by
    simp [renderedCards, fetchNews, fetchNewsStart, fetchNewsComplete]⟩

/-- C7: a user refresh (`fetchNews(true)`) enters the Refreshing state and
not the Loading state (from a settled state `loading` stays false), leaves
the displayed `news` unchanged until the response arrives, and re-issues the
list request with the current `selectedCategory`. -/
theorem claim_C7 (base : String) (s : FeedState) (h : s.loading = false) :
    (fetchNewsStart true s).refreshing = true ∧
    (fetchNewsStart true s).loading = false ∧
    (fetchNewsStart true s).news = s.news ∧
    refreshRequestUrl base s = listRequestUrl base s.selectedCategory := by
  refine ⟨rfl, ?_, rfl, rfl⟩
  simp [fetchNewsStart, h]

/-- C7 witness: refreshing from a concrete settled state. -/
theorem claim_C7_witness :
    sampleLoadedState.loading = false ∧
    (fetchNewsStart true sampleLoadedState).refreshing = true ∧
    (fetchNewsStart true sampleLoadedState).loading = false ∧
    (fetchNewsStart true sampleLoadedState).news = sampleLoadedState.news ∧
    refreshRequestUrl "http://localhost:8001" sampleLoadedState =
      listRequestUrl "http://localhost:8001" "technology" := by
  have h := claim_C7 "http://localhost:8001" sampleLoadedState rfl
  exact ⟨rfl, h.1, h.2.1, h.2.2.1, h.2.2.2⟩

/-- C8: the Seed action is offered exactly when `news` is empty and `error`
is null (errors stored by the Client are non-empty strings), and invoking it
issues the seed post first and then, once the post resolves, the list
request with the current `selectedCategory`. -/
theorem claim_C8 (base : String) (s : FeedState) (lr : ListResult) :
    (s.news = [] → s.error = none → showSeedAction s = true) ∧
    (s.news ≠ [] → showSeedAction s = false) ∧
    (∀ m, s.error = some m → m ≠ "" → showSeedAction s = false) ∧
    seedNewsRequests base s (SeedResult.ok lr) =
      [Request.seedReq (seedRequestUrl base),
       Request.listReq (listRequestUrl base s.selectedCategory)] := by
  refine ⟨?_, ?_, ?_, rfl⟩
  · intro h1 h2
    simp [showSeedAction, jsTruthy, h1, h2]
  · intro h1
    cases hsn : s.news with
    | nil => exact absurd hsn h1
    | cons a t => simp [showSeedAction, hsn]
  · intro m h1 h2
    simp [showSeedAction, jsTruthy, h1, h2]

/-- C8 witness: in the concrete empty, error-free state the Seed action is
offered and its request trace is seed-then-list. -/
theorem claim_C8_witness :
    sampleLoadedState.news = [] ∧
    sampleLoadedState.error = none ∧
    showSeedAction sampleLoadedState = true ∧
    seedNewsRequests "http://localhost:8001" sampleLoadedState
        (SeedResult.ok (ListResult.ok [])) =
      [Request.seedReq (seedRequestUrl "http://localhost:8001"),
       Request.listReq (listRequestUrl "http://localhost:8001" "technology")] := by
  have h := claim_C8 "http://localhost:8001" sampleLoadedState
    (ListResult.ok [])
  exact ⟨rfl, rfl, h.1 rfl rfl, h.2.2.2⟩

/-- C9: the list request targets `{base}/api/news`, where the base comes
from `REACT_APP_API_URL` defaulting to `http://localhost:8001`, always
carries `limit=50`, and carries a `category` parameter exactly when the
selected category is not "all". -/
theorem claim_C9 (b c : String) :
    apiBase none = "http://localhost:8001" ∧
    (b ≠ "" → apiBase (some b) = b) ∧
    (c = "all" → listRequestUrl b c = b ++ "/api/news?limit=50") ∧
    (c ≠ "all" →
      listRequestUrl b c = b ++ ("/api/news?limit=50&category=" ++ c)) := by
  refine ⟨rfl, ?_, ?_, ?_⟩
  · intro h
    simp [apiBase, h]
  · intro h
    subst h
    simp only [listRequestUrl, apiPrefix, ne_eq, not_true_eq_false,
      if_false, String.append_empty]
    rw [String.append_assoc]
    congr 1
  · intro h
    simp only [listRequestUrl, apiPrefix, ne_eq, h, not_false_eq_true,
      if_true]
    rw [String.append_assoc, String.append_assoc]
    congr 1

/-- C9 witness: the default base, and concrete URLs for the "all" and
"technology" selections. -/
theorem claim_C9_witness :
    apiBase (some "http://example.com") = "http://example.com" ∧
    listRequestUrl "http://localhost:8001" "all" =
      "http://localhost:8001" ++ "/api/news?limit=50" ∧
    listRequestUrl "http://localhost:8001" "technology" =
      "http://localhost:8001" ++ ("/api/news?limit=50&category=" ++ "technology") := by
  exact ⟨(claim_C9 "http://example.com" "all").2.1 (by decide),
    (claim_C9 "http://localhost:8001" "all").2.2.1 rfl,
    (claim_C9 "http://localhost:8001" "technology").2.2.2 (by decide)⟩

/-- C10: every run of `fetchNews` ends with `loading` and `refreshing` both
false (its `finally` clears both), and every run of `seedNews` invoked from
a rendered state — the seed button only exists when `loading` is false —
also ends with both false (its `finally` clears `refreshing`; `loading` is
either untouched or cleared by the inner `fetchNews`). -/
theorem claim_C10 (s : FeedState) (b : Bool) (r : ListResult)
    (sr : SeedResult) :
    (fetchNews b r s).loading = false ∧
    (fetchNews b r s).refreshing = false ∧
    (s.loading = false →
      (seedNews sr s).loading = false ∧ (seedNews sr s).refreshing = false) := by
  refine ⟨?_, ?_, ?_⟩
  · cases b <;> cases r <;> rfl
  · cases b <;> cases r <;> rfl
  · intro h
    cases sr with
    | ok lr => cases lr <;> exact ⟨rfl, rfl⟩
    | err => exact ⟨by simp [seedNews, h], rfl⟩

/-- C10 witness: both flags are false after a failed fetch and after a
failed seed from a concrete settled state. -/
theorem claim_C10_witness :
    sampleLoadedState.loading = false ∧
    (fetchNews false ListResult.netErr sampleLoadedState).loading = false ∧
    (fetchNews false ListResult.netErr sampleLoadedState).refreshing = false ∧
    (seedNews SeedResult.err sampleLoadedState).loading = false ∧
    (seedNews SeedResult.err sampleLoadedState).refreshing = false := by
  have h := claim_C10 sampleLoadedState false ListResult.netErr SeedResult.err
  exact ⟨rfl, h.1, h.2.1, (h.2.2 rfl).1, (h.2.2 rfl).2⟩

end NewsShorts
